import Mathlib

/-!
# Verification of the 2048 grid engine

A shallow embedding of `src/2048_tilt/src/utils/gameLogic.ts` (with the
`Direction` enum from the game's type definitions), together with proofs
of the specification's claims about it.

Grids are lists of rows of natural numbers (JS arrays of non-negative
integers); the `Direction` string enum is embedded as `String` constants;
the two random draws inside `addRandomTile` (cell selection and the 2/4
value choice) are injected as explicit parameters.
-/

namespace Game2048

/-- `Grid = number[][]`: a grid is a list of rows of naturals. -/
abbrev Grid := List (List Nat)

/- The `Direction` string enum: `UP = 'UP'`, etc. -/
namespace Direction

def UP : String := "UP"

def DOWN : String := "DOWN"

def LEFT : String := "LEFT"

def RIGHT : String := "RIGHT"

end Direction

/-- The record returned by the move functions:
`{ newGrid, scoreGained, moved }`. -/
structure MoveResult where
  newGrid : Grid
  scoreGained : Nat
  moved : Bool
  deriving Repr, DecidableEq

/-- `createEmptyGrid`: a 4x4 grid of zeros. -/
def createEmptyGrid : Grid :=
  List.replicate 4 (List.replicate 4 0)

/-- `cloneGrid`: `grid.map(row => [...row])` — a per-row copy.  Lists are
immutable values, so the copy is the identity on the value. -/
def cloneGrid (grid : Grid) : Grid :=
  grid.map (fun row => row)

/-- Reading `grid[row][col]` (in-bounds on every 4x4 grid; out-of-bounds
reads default to `0`, a case the source never exercises on valid grids). -/
def getCell (grid : Grid) (row col : Nat) : Nat :=
  (grid.getD row []).getD col 0

/-- Writing `grid[row][col] = v`. -/
def setCell (grid : Grid) (row col v : Nat) : Grid :=
  grid.set row ((grid.getD row []).set col v)

/-- The `emptyCells` scan of `addRandomTile`: all `(row, col)` with
`grid[row][col] === 0`, rows outer, columns inner. -/
def emptyCells (grid : Grid) : List (Nat × Nat) :=
  (List.range 4).flatMap (fun row =>
    (List.range 4).filterMap (fun col =>
      if getCell grid row col = 0 then some (row, col) else none))

/-- `addRandomTile` with its randomness injected: `cellPick` stands for the
uniform draw `Math.floor(Math.random() * emptyCells.length)` (reduced
modulo the number of candidates, so every outcome of the source's draw is
covered), and `coin = true` for the 80% branch producing a `2`,
`coin = false` for the 20% branch producing a `4`.  On a grid with no
empty cell it returns the clone unchanged. -/
def addRandomTile (grid : Grid) (cellPick : Nat) (coin : Bool) : Grid :=
  let newGrid := cloneGrid grid
  let cells := emptyCells newGrid
  if cells.length = 0 then newGrid
  else
    let c := cells.getD (cellPick % cells.length) (0, 0)
    setCell newGrid c.1 c.2 (if coin then 2 else 4)

/-- `reverseArray`: `[...arr].reverse()`. -/
def reverseArray (arr : List Nat) : List Nat :=
  arr.reverse

/-- The merge loop of `slideAndMergeRow` (step 2): a single left-to-right
sweep over the compacted row; an equal adjacent pair is replaced by its
double and a `0`, the doubled value is added to the score, and the sweep
skips past the consumed right element (`i++` inside the loop). -/
def mergeList : List Nat → List Nat × Nat
  | a :: b :: rest =>
    if a = b then
      let r := mergeList rest
      (2 * a :: 0 :: r.1, 2 * a + r.2)
    else
      let r := mergeList (b :: rest)
      (a :: r.1, r.2)
  | l => (l, 0)

/-- Step 4 of `slideAndMergeRow`: push `0` until the length is 4. -/
def padTo4 (l : List Nat) : List Nat :=
  l ++ List.replicate (4 - l.length) 0

/-- `slideAndMergeRow`: compact (drop zeros), merge in one sweep, compact
again, right-pad with zeros to length 4; returns the new row and the score
gained. -/
def slideAndMergeRow (row : List Nat) : List Nat × Nat :=
  let compacted := row.filter (fun v => v != 0)
  let merged := mergeList compacted
  let recompacted := merged.1.filter (fun v => v != 0)
  (padTo4 recompacted, merged.2)

/-- `moveLeft`: apply `slideAndMergeRow` to each row; sum the per-row
scores; `moved` is true iff some resulting row differs from its original
row (the source compares the JSON serializations, i.e. list equality). -/
def moveLeft (grid : Grid) : MoveResult where
  newGrid := grid.map (fun row => (slideAndMergeRow row).1)
  scoreGained := (grid.map (fun row => (slideAndMergeRow row).2)).sum
  moved := grid.any (fun row => (slideAndMergeRow row).1 != row)

/-- `moveRight`: reverse each row, slide left, reverse back. -/
def moveRight (grid : Grid) : MoveResult where
  newGrid := grid.map (fun row => reverseArray (slideAndMergeRow (reverseArray row)).1)
  scoreGained := (grid.map (fun row => (slideAndMergeRow (reverseArray row)).2)).sum
  moved := grid.any (fun row => reverseArray (slideAndMergeRow (reverseArray row)).1 != row)

/-- `transposeGrid`: `newGrid[col][row] = grid[row][col]` over a fresh 4x4
grid, i.e. the result's cell `(r, c)` is the input's cell `(c, r)`. -/
def transposeGrid (grid : Grid) : Grid :=
  (List.range 4).map (fun r => (List.range 4).map (fun c => getCell grid c r))

/-- `moveUp`: transpose, `moveLeft`, transpose back. -/
def moveUp (grid : Grid) : MoveResult :=
  let result := moveLeft (transposeGrid grid)
  { newGrid := transposeGrid result.newGrid
    scoreGained := result.scoreGained
    moved := result.moved }

/-- `moveDown`: transpose, `moveRight`, transpose back. -/
def moveDown (grid : Grid) : MoveResult :=
  let result := moveRight (transposeGrid grid)
  { newGrid := transposeGrid result.newGrid
    scoreGained := result.scoreGained
    moved := result.moved }

/-- `move`: dispatch on the direction value; any unrecognized direction
falls through to the default branch returning the grid unchanged with
zero score and `moved = false`. -/
def move (grid : Grid) (direction : String) : MoveResult :=
  if direction = Direction.UP then moveUp grid
  else if direction = Direction.DOWN then moveDown grid
  else if direction = Direction.LEFT then moveLeft grid
  else if direction = Direction.RIGHT then moveRight grid
  else { newGrid := grid, scoreGained := 0, moved := false }

/-- `isGameOver`: false as soon as the scan finds an empty cell; else
false as soon as some cell has an equal vertical or horizontal neighbor;
else true. -/
def isGameOver (grid : Grid) : Bool :=
  !((List.range 4).any fun row => (List.range 4).any fun col =>
      getCell grid row col == 0) &&
  !((List.range 4).any fun row => (List.range 4).any fun col =>
      (decide (0 < row) && (getCell grid (row - 1) col == getCell grid row col)) ||
      (decide (row < 3) && (getCell grid (row + 1) col == getCell grid row col)) ||
      (decide (0 < col) && (getCell grid row (col - 1) == getCell grid row col)) ||
      (decide (col < 3) && (getCell grid row (col + 1) == getCell grid row col)))

/-- `hasWon`: some cell equals 2048 exactly. -/
def hasWon (grid : Grid) : Bool :=
  (List.range 4).any fun row => (List.range 4).any fun col =>
    getCell grid row col == 2048

/-- A well-formed grid: 4 rows, each of 4 columns (cells are naturals, so
non-negativity is built into the type). -/
def validGrid (grid : Grid) : Prop :=
  grid.length = 4 ∧ ∀ row ∈ grid, row.length = 4

instance : DecidablePred validGrid := fun g =>
  inferInstanceAs (Decidable (g.length = 4 ∧ ∀ row ∈ g, row.length = 4))

/-- The sum of all cell values of a grid. -/
def gridSum (grid : Grid) : Nat :=
  (grid.map List.sum).sum

/-- Every cell is zero or a power of two. -/
def cellsOK (grid : Grid) : Prop :=
  ∀ row ∈ grid, ∀ x ∈ row, x = 0 ∨ ∃ k, x = 2 ^ k

/-- The four valid direction values. -/
def allDirections : List String :=
  [Direction.UP, Direction.DOWN, Direction.LEFT, Direction.RIGHT]

/-! ## Basic lemmas about the merge sweep -/

lemma mergeList_cons_cons (a b : Nat) (rest : List Nat) :
    mergeList (a :: b :: rest) =
      if a = b then (2 * a :: 0 :: (mergeList rest).1, 2 * a + (mergeList rest).2)
      else (a :: (mergeList (b :: rest)).1, (mergeList (b :: rest)).2) := by
  rw [mergeList]

lemma mergeList_length : ∀ l : List Nat, (mergeList l).1.length = l.length
  | [] => rfl
  | [_] => rfl
  | a :: b :: rest => by
    rw [mergeList_cons_cons]
    split
    · simp [mergeList_length rest]
    · simp [mergeList_length (b :: rest)]

lemma mergeList_sum : ∀ l : List Nat, (mergeList l).1.sum = l.sum
  | [] => rfl
  | [_] => rfl
  | a :: b :: rest => by
    rw [mergeList_cons_cons]
    split
    · rename_i hab
      have ih := mergeList_sum rest
      simp [← hab]
      omega
    · have ih := mergeList_sum (b :: rest)
      simp at ih ⊢
      omega

lemma mergeList_snd_zero : ∀ l : List Nat, (mergeList l).2 = 0 → (mergeList l).1 = l
  | [] => fun _ => rfl
  | [_] => fun _ => rfl
  | a :: b :: rest => by
    rw [mergeList_cons_cons]
    split
    · rename_i hab
      intro h
      simp at h
      have ih := mergeList_snd_zero rest h.2
      simp [ih, h.1, ← hab]
    · intro h
      have ih := mergeList_snd_zero (b :: rest) h
      simp [ih]

lemma mergeList_of_chain : ∀ l : List Nat, l.Chain' (· ≠ ·) → mergeList l = (l, 0)
  | [] => fun _ => rfl
  | [_] => fun _ => rfl
  | a :: b :: rest => by
    intro hc
    rw [List.chain'_cons] at hc
    rw [mergeList_cons_cons, if_neg hc.1, mergeList_of_chain (b :: rest) hc.2]

lemma mergeList_score_ne : ∀ l : List Nat, (∀ x ∈ l, x ≠ 0) →
    ¬ l.Chain' (· ≠ ·) → (mergeList l).2 ≠ 0
  | [] => fun _ hc => absurd List.chain'_nil hc
  | [_] => fun _ hc => absurd (List.chain'_singleton _) hc
  | a :: b :: rest => by
    intro h0 hc
    rw [mergeList_cons_cons]
    split
    · have ha : a ≠ 0 := h0 a (by simp)
      simp
      omega
    · rename_i hab
      rw [List.chain'_cons] at hc
      push_neg at hc
      exact mergeList_score_ne (b :: rest) (fun x hx => h0 x (by simp at hx ⊢; tauto))
        (hc hab)

lemma mergeList_nzc_lt : ∀ l : List Nat, (∀ x ∈ l, x ≠ 0) → (mergeList l).2 ≠ 0 →
    ((mergeList l).1.filter (fun v => v != 0)).length < l.length
  | [] => by intro _ hs; simp [mergeList] at hs
  | [_] => by intro _ hs; simp [mergeList] at hs
  | a :: b :: rest => by
    intro h0 hs
    rw [mergeList_cons_cons]
    split
    · rename_i hab
      have ha : a ≠ 0 := h0 a (by simp)
      have h2a : (2 * a != 0) = true := by simp; omega
      have hlen := List.length_filter_le (fun v => v != 0) (mergeList rest).1
      have hml := mergeList_length rest
      simp [h2a]
      omega
    · rename_i hab
      rw [mergeList_cons_cons, if_neg hab] at hs
      have ha : a ≠ 0 := h0 a (by simp)
      have ih := mergeList_nzc_lt (b :: rest)
        (fun x hx => h0 x (by simp at hx ⊢; tauto)) hs
      simp at ih ⊢
      have hane : (a != 0) = true := by simp [ha]
      simp [hane]
      omega

lemma mergeList_mem : ∀ l : List Nat, ∀ x ∈ (mergeList l).1,
    x = 0 ∨ x ∈ l ∨ ∃ y ∈ l, x = 2 * y
  | [] => by simp [mergeList]
  | [a] => by simp [mergeList]
  | a :: b :: rest => by
    intro x hx
    rw [mergeList_cons_cons] at hx
    split at hx
    · simp at hx
      rcases hx with h | h | h
      · exact Or.inr (Or.inr ⟨a, by simp, h⟩)
      · exact Or.inl h
      · rcases mergeList_mem rest x h with h' | h' | ⟨y, hy, h2⟩
        · exact Or.inl h'
        · exact Or.inr (Or.inl (by simp [h']))
        · exact Or.inr (Or.inr ⟨y, by simp [hy], h2⟩)
    · simp at hx
      rcases hx with h | h
      · exact Or.inr (Or.inl (by simp [h]))
      · rcases mergeList_mem (b :: rest) x h with h' | h' | ⟨y, hy, h2⟩
        · exact Or.inl h'
        · exact Or.inr (Or.inl (by simp at h' ⊢; tauto))
        · exact Or.inr (Or.inr ⟨y, by simp at hy ⊢; tauto, h2⟩)

/-! ## Basic lemmas about a single row slide -/

lemma padTo4_def (l : List Nat) : padTo4 l = l ++ List.replicate (4 - l.length) 0 := rfl

lemma padTo4_length (l : List Nat) (h : l.length ≤ 4) : (padTo4 l).length = 4 := by
  simp [padTo4]
  omega

lemma padTo4_sum (l : List Nat) : (padTo4 l).sum = l.sum := by
  simp [padTo4]

lemma filter_nz_sum : ∀ l : List Nat, (l.filter (fun v => v != 0)).sum = l.sum
  | [] => rfl
  | x :: tl => by
    by_cases h : x = 0
    · simp [h, filter_nz_sum tl]
    · simp [h, filter_nz_sum tl]

lemma slide_fst (row : List Nat) :
    (slideAndMergeRow row).1 =
      padTo4 ((mergeList (row.filter (fun v => v != 0))).1.filter (fun v => v != 0)) := rfl

lemma slide_snd (row : List Nat) :
    (slideAndMergeRow row).2 = (mergeList (row.filter (fun v => v != 0))).2 := rfl

lemma slide_sum (row : List Nat) : (slideAndMergeRow row).1.sum = row.sum := by
  rw [slide_fst, padTo4_sum, filter_nz_sum, mergeList_sum, filter_nz_sum]

lemma slide_length (row : List Nat) (h : row.length ≤ 4) :
    (slideAndMergeRow row).1.length = 4 := by
  rw [slide_fst]
  apply padTo4_length
  calc ((mergeList (row.filter (fun v => v != 0))).1.filter (fun v => v != 0)).length
      ≤ (mergeList (row.filter (fun v => v != 0))).1.length := List.length_filter_le _ _
    _ = (row.filter (fun v => v != 0)).length := mergeList_length _
    _ ≤ row.length := List.length_filter_le _ _
    _ ≤ 4 := h

lemma slide_fixed_of_chain (row : List Nat) (h4 : row.length = 4)
    (h0 : ∀ x ∈ row, x ≠ 0) (hc : row.Chain' (· ≠ ·)) :
    slideAndMergeRow row = (row, 0) := by
  have hf : row.filter (fun v => v != 0) = row := by
    apply List.filter_eq_self.mpr
    intro x hx
    simp [h0 x hx]
  rw [slideAndMergeRow]
  simp only [hf, mergeList_of_chain row hc]
  simp [hf, padTo4, h4]

/-! ## Zeros are trailing in a slid row -/

lemma getD_replicate_zero (k m : Nat) : (List.replicate k 0).getD m 0 = 0 := by
  rcases Nat.lt_or_ge m k with h | h
  · rw [List.getD_eq_getElem _ _ (by simpa using h)]
    simp
  · exact List.getD_eq_default _ _ (by simpa using h)

lemma append_replicate_zt (l₁ : List Nat) (k i j : Nat) (h₁ : ∀ x ∈ l₁, x ≠ 0)
    (hij : i < j) (h0 : (l₁ ++ List.replicate k 0).getD i 1 = 0) :
    (l₁ ++ List.replicate k 0).getD j 0 = 0 := by
  have hi : l₁.length ≤ i := by
    by_contra hlt
    push_neg at hlt
    rw [List.getD_append _ _ _ _ hlt, List.getD_eq_getElem _ _ hlt] at h0
    exact h₁ _ (List.getElem_mem hlt) h0
  have hj : l₁.length ≤ j := le_trans hi (le_of_lt hij)
  rw [List.getD_append_right _ _ _ _ hj, getD_replicate_zero]

/-- The output row of a slide always has all its zeros at the end: a zero
at index `i` forces a zero at every later index `j`. -/
lemma slide_zt (row : List Nat) (i j : Nat) (hij : i < j)
    (h0 : (slideAndMergeRow row).1.getD i 1 = 0) :
    (slideAndMergeRow row).1.getD j 0 = 0 := by
  rw [slide_fst, padTo4_def] at h0 ⊢
  exact append_replicate_zt _ _ i j (by intro x hx; simpa using (List.mem_filter.mp hx).2)
    hij h0

/-- A row holding a zero strictly before a nonzero cell is changed by the
slide. -/
lemma slide_ne_of_zero_before_nonzero (row : List Nat) (i j : Nat) (hij : i < j)
    (h0 : row.getD i 1 = 0) (hnz : row.getD j 0 ≠ 0) :
    (slideAndMergeRow row).1 ≠ row := by
  intro he
  rw [← he] at h0 hnz
  exact hnz (slide_zt row i j hij h0)

/-! ## Helper lemmas about the grid-level transforms -/

lemma reverseArray_reverseArray (l : List Nat) : reverseArray (reverseArray l) = l := by
  simp [reverseArray]

/-- The `moved` flag of a left move is set exactly when the new grid
differs from the old one. -/
lemma any_ne_iff_map_ne (f : List Nat → List Nat) :
    ∀ L : List (List Nat), (L.any fun r => f r != r) = true ↔ L.map f ≠ L
  | [] => by simp
  | r :: L => by
    rw [List.any_cons, Bool.or_eq_true, bne_iff_ne, any_ne_iff_map_ne f L, List.map_cons]
    constructor
    · rintro (h | h) hc
      · injection hc with h1 h2
        exact h h1
      · injection hc with h1 h2
        exact h h2
    · intro h
      by_cases hr : f r = r
      · right
        intro hL
        exact h (by rw [hr, hL])
      · left; exact hr

lemma moveLeft_moved_iff (G : Grid) :
    (moveLeft G).moved = true ↔ (moveLeft G).newGrid ≠ G :=
  any_ne_iff_map_ne _ G

lemma moveRight_moved_iff (G : Grid) :
    (moveRight G).moved = true ↔ (moveRight G).newGrid ≠ G :=
  any_ne_iff_map_ne _ G

lemma moveLeft_moved_of_mem (G : Grid) (row : List Nat) (hmem : row ∈ G)
    (h : (slideAndMergeRow row).1 ≠ row) : (moveLeft G).moved = true := by
  simp only [moveLeft, List.any_eq_true]
  exact ⟨row, hmem, by simpa using h⟩

lemma moveRight_moved_of_mem (G : Grid) (row : List Nat) (hmem : row ∈ G)
    (h : reverseArray (slideAndMergeRow (reverseArray row)).1 ≠ row) :
    (moveRight G).moved = true := by
  simp only [moveRight, List.any_eq_true]
  exact ⟨row, hmem, by simpa using h⟩

lemma moveLeft_noop (G : Grid) (h : ∀ row ∈ G, slideAndMergeRow row = (row, 0)) :
    moveLeft G = ⟨G, 0, false⟩ := by
  simp only [moveLeft, MoveResult.mk.injEq]
  refine ⟨?_, ?_, ?_⟩
  · have heq : List.map (fun row => (slideAndMergeRow row).1) G = List.map id G :=
      List.map_congr_left (fun row hr => by simp [h row hr])
    simpa using heq
  · apply List.sum_eq_zero
    intro x hx
    simp only [List.mem_map] at hx
    obtain ⟨row, hr, hval⟩ := hx
    rw [h row hr] at hval
    exact hval.symm
  · simp only [List.any_eq_false]
    intro row hr
    simp [h row hr]

lemma moveRight_noop (G : Grid)
    (h : ∀ row ∈ G, slideAndMergeRow (reverseArray row) = (reverseArray row, 0)) :
    moveRight G = ⟨G, 0, false⟩ := by
  simp only [moveRight, MoveResult.mk.injEq]
  refine ⟨?_, ?_, ?_⟩
  · have heq : List.map (fun row => reverseArray (slideAndMergeRow (reverseArray row)).1) G =
        List.map id G :=
      List.map_congr_left (fun row hr => by simp [h row hr, reverseArray_reverseArray])
    simpa using heq
  · apply List.sum_eq_zero
    intro x hx
    simp only [List.mem_map] at hx
    obtain ⟨row, hr, hval⟩ := hx
    rw [h row hr] at hval
    exact hval.symm
  · simp only [List.any_eq_false]
    intro row hr
    simp [h row hr, reverseArray_reverseArray]

/-! ## C10 row lemma: a merge changes the row -/

lemma filter_idem (l : List Nat) :
    ((l.filter (fun v => v != 0)).filter (fun v => v != 0)) = l.filter (fun v => v != 0) :=
  List.filter_eq_self.mpr (fun x hx => (List.mem_filter.mp hx).2)

lemma slide_score_ne_imp_changed (row : List Nat) (hs : (slideAndMergeRow row).2 ≠ 0) :
    (slideAndMergeRow row).1 ≠ row := by
  rw [slide_snd] at hs
  intro he
  have hz : ∀ x ∈ row.filter (fun v => v != 0), x ≠ 0 := by
    intro x hx
    simpa using (List.mem_filter.mp hx).2
  have hlt := mergeList_nzc_lt _ hz hs
  have : ((slideAndMergeRow row).1.filter (fun v => v != 0)).length <
      (row.filter (fun v => v != 0)).length := by
    rw [slide_fst, padTo4_def, List.filter_append]
    have hrep : (List.replicate (4 - ((mergeList (row.filter (fun v => v != 0))).1.filter
        (fun v => v != 0)).length) (0 : Nat)).filter (fun v => v != 0) = [] := by
      apply List.filter_eq_nil_iff.mpr
      intro x hx
      simp at hx
      simp [hx]
    rw [hrep, List.append_nil, filter_idem]
    exact hlt
  rw [he] at this
  exact absurd this (lt_irrefl _)

/-! ## C6 row lemma: re-sliding a slid row moves only via a merge -/

lemma slide_second_fixed (row : List Nat)
    (hs : (slideAndMergeRow ((slideAndMergeRow row).1)).2 = 0) :
    (slideAndMergeRow ((slideAndMergeRow row).1)).1 = (slideAndMergeRow row).1 := by
  set m := (mergeList (row.filter (fun v => v != 0))).1 with hm
  have hout : (slideAndMergeRow row).1 =
      m.filter (fun v => v != 0) ++
        List.replicate (4 - (m.filter (fun v => v != 0)).length) 0 := by
    rw [slide_fst, padTo4_def]
  have hfil : ((slideAndMergeRow row).1).filter (fun v => v != 0) =
      m.filter (fun v => v != 0) := by
    rw [hout, List.filter_append]
    have hrep : (List.replicate (4 - (m.filter (fun v => v != 0)).length) (0 : Nat)).filter
        (fun v => v != 0) = [] := by
      apply List.filter_eq_nil_iff.mpr
      intro x hx
      simp at hx
      simp [hx]
    rw [hrep, List.append_nil, filter_idem]
  rw [slide_snd, hfil] at hs
  have hmerge := mergeList_snd_zero _ hs
  rw [slide_fst, hfil, hmerge, filter_idem]
  rw [hout, padTo4_def]

/-! ## Explicit 4x4 decomposition and transpose lemmas -/

lemma length_eq_four {α : Type} : ∀ l : List α, l.length = 4 → ∃ a b c d, l = [a, b, c, d]
  | [], h => by simp at h
  | [_], h => by simp at h
  | [_, _], h => by simp at h
  | [_, _, _], h => by simp at h
  | [a, b, c, d], _ => ⟨a, b, c, d, rfl⟩
  | _ :: _ :: _ :: _ :: _ :: _, h => by simp at h

lemma grid_shape (G : Grid) (hG : validGrid G) :
    ∃ a b c d e f g h i j k l m n o p,
      G = [[a, b, c, d], [e, f, g, h], [i, j, k, l], [m, n, o, p]] := by
  obtain ⟨hlen, hrows⟩ := hG
  obtain ⟨r0, r1, r2, r3, rfl⟩ := length_eq_four G hlen
  obtain ⟨a, b, c, d, rfl⟩ := length_eq_four r0 (hrows _ (by simp))
  obtain ⟨e, f, g, h, rfl⟩ := length_eq_four r1 (hrows _ (by simp))
  obtain ⟨i, j, k, l, rfl⟩ := length_eq_four r2 (hrows _ (by simp))
  obtain ⟨m, n, o, p, rfl⟩ := length_eq_four r3 (hrows _ (by simp))
  exact ⟨a, b, c, d, e, f, g, h, i, j, k, l, m, n, o, p, rfl⟩

lemma transpose_explicit (a b c d e f g h i j k l m n o p : Nat) :
    transposeGrid [[a, b, c, d], [e, f, g, h], [i, j, k, l], [m, n, o, p]] =
      [[a, e, i, m], [b, f, j, n], [c, g, k, o], [d, h, l, p]] := rfl

lemma transpose_valid (G : Grid) : validGrid (transposeGrid G) := by
  constructor
  · simp [transposeGrid]
  · intro row hrow
    simp only [transposeGrid, List.mem_map] at hrow
    obtain ⟨r, _, rfl⟩ := hrow
    simp

lemma transpose_transpose (G : Grid) (hG : validGrid G) :
    transposeGrid (transposeGrid G) = G := by
  obtain ⟨a, b, c, d, e, f, g, h, i, j, k, l, m, n, o, p, rfl⟩ := grid_shape G hG
  rw [transpose_explicit, transpose_explicit]

lemma moveLeft_valid (G : Grid) (hG : validGrid G) : validGrid (moveLeft G).newGrid := by
  obtain ⟨hlen, hrows⟩ := hG
  constructor
  · simp [moveLeft, hlen]
  · intro row hrow
    simp only [moveLeft, List.mem_map] at hrow
    obtain ⟨r, hr, rfl⟩ := hrow
    exact slide_length r (le_of_eq (hrows r hr))

lemma moveRight_valid (G : Grid) (hG : validGrid G) : validGrid (moveRight G).newGrid := by
  obtain ⟨hlen, hrows⟩ := hG
  constructor
  · simp [moveRight, hlen]
  · intro row hrow
    simp only [moveRight, List.mem_map] at hrow
    obtain ⟨r, hr, rfl⟩ := hrow
    simp only [reverseArray, List.length_reverse]
    exact slide_length _ (by simp [reverseArray, hrows r hr])

lemma moveUp_valid (G : Grid) : validGrid (moveUp G).newGrid :=
  transpose_valid _

lemma moveDown_valid (G : Grid) : validGrid (moveDown G).newGrid :=
  transpose_valid _

lemma move_UP (G : Grid) : move G Direction.UP = moveUp G := rfl

lemma move_DOWN (G : Grid) : move G Direction.DOWN = moveDown G := by
  simp [move, Direction.UP, Direction.DOWN]

lemma move_LEFT (G : Grid) : move G Direction.LEFT = moveLeft G := by
  simp [move, Direction.UP, Direction.DOWN, Direction.LEFT]

lemma move_RIGHT (G : Grid) : move G Direction.RIGHT = moveRight G := by
  simp [move, Direction.UP, Direction.DOWN, Direction.LEFT, Direction.RIGHT]

lemma moveUp_eq (G : Grid) :
    moveUp G = ⟨transposeGrid (moveLeft (transposeGrid G)).newGrid,
      (moveLeft (transposeGrid G)).scoreGained, (moveLeft (transposeGrid G)).moved⟩ := rfl

lemma moveDown_eq (G : Grid) :
    moveDown G = ⟨transposeGrid (moveRight (transposeGrid G)).newGrid,
      (moveRight (transposeGrid G)).scoreGained, (moveRight (transposeGrid G)).moved⟩ := rfl

/-! ## Helpers for the game-over equivalence -/

lemma range_four : List.range 4 = [0, 1, 2, 3] := by decide

/-- A length-4 row holding both a zero and a nonzero value is changed by a
left slide or by a right slide. -/
lemma row_moves_lr (a b c d : Nat) (hz : a = 0 ∨ b = 0 ∨ c = 0 ∨ d = 0)
    (hn : ¬(a = 0 ∧ b = 0 ∧ c = 0 ∧ d = 0)) :
    (slideAndMergeRow [a, b, c, d]).1 ≠ [a, b, c, d] ∨
      reverseArray (slideAndMergeRow (reverseArray [a, b, c, d])).1 ≠ [a, b, c, d] := by
  have hrev : ∀ i j : Nat, i < j → ([d, c, b, a] : List Nat).getD i 1 = 0 →
      ([d, c, b, a] : List Nat).getD j 0 ≠ 0 →
      reverseArray (slideAndMergeRow (reverseArray [a, b, c, d])).1 ≠ [a, b, c, d] := by
    intro i j hij h0 hnz heq
    have hr : (slideAndMergeRow [d, c, b, a]).1 = [d, c, b, a] := by
      have h2 := congrArg reverseArray heq
      rwa [reverseArray_reverseArray] at h2
    exact slide_ne_of_zero_before_nonzero _ i j hij h0 hnz hr
  rcases hz with h0 | h0 | h0 | h0
  · have hn' : b ≠ 0 ∨ c ≠ 0 ∨ d ≠ 0 := by tauto
    rcases hn' with hn' | hn' | hn'
    · exact Or.inl (slide_ne_of_zero_before_nonzero _ 0 1 (by omega) h0 hn')
    · exact Or.inl (slide_ne_of_zero_before_nonzero _ 0 2 (by omega) h0 hn')
    · exact Or.inl (slide_ne_of_zero_before_nonzero _ 0 3 (by omega) h0 hn')
  · by_cases hcd : c ≠ 0 ∨ d ≠ 0
    · rcases hcd with hn' | hn'
      · exact Or.inl (slide_ne_of_zero_before_nonzero _ 1 2 (by omega) h0 hn')
      · exact Or.inl (slide_ne_of_zero_before_nonzero _ 1 3 (by omega) h0 hn')
    · push_neg at hcd
      have ha : a ≠ 0 := by tauto
      exact Or.inr (hrev 0 3 (by omega) hcd.2 ha)
  · by_cases hd : d ≠ 0
    · exact Or.inl (slide_ne_of_zero_before_nonzero _ 2 3 (by omega) h0 hd)
    · push_neg at hd
      have hab : a ≠ 0 ∨ b ≠ 0 := by tauto
      rcases hab with hn' | hn'
      · exact Or.inr (hrev 0 3 (by omega) hd hn')
      · exact Or.inr (hrev 0 2 (by omega) hd hn')
  · have hn' : a ≠ 0 ∨ b ≠ 0 ∨ c ≠ 0 := by tauto
    rcases hn' with hn' | hn' | hn'
    · exact Or.inr (hrev 0 3 (by omega) h0 hn')
    · exact Or.inr (hrev 0 2 (by omega) h0 hn')
    · exact Or.inr (hrev 0 1 (by omega) h0 hn')

/-- A zero-free length-4 row with an adjacent equal pair gains score when
slid. -/
lemma row_score_ne (a b c d : Nat) (h0 : a ≠ 0 ∧ b ≠ 0 ∧ c ≠ 0 ∧ d ≠ 0)
    (hp : a = b ∨ b = c ∨ c = d) : (slideAndMergeRow [a, b, c, d]).2 ≠ 0 := by
  rw [slide_snd]
  have hf : ([a, b, c, d] : List Nat).filter (fun v => v != 0) = [a, b, c, d] := by
    apply List.filter_eq_self.mpr
    intro x hx
    simp at hx
    simp
    rcases hx with rfl | rfl | rfl | rfl <;> tauto
  rw [hf]
  apply mergeList_score_ne
  · intro x hx
    simp at hx
    rcases hx with rfl | rfl | rfl | rfl <;> tauto
  · simp [List.chain'_cons]
    tauto

lemma moveLeft_score_ne (G : Grid) (row : List Nat) (hmem : row ∈ G)
    (h : (slideAndMergeRow row).2 ≠ 0) : (moveLeft G).scoreGained ≠ 0 := by
  simp only [moveLeft]
  intro hsum
  rw [List.sum_eq_zero_iff] at hsum
  exact h (hsum _ (List.mem_map_of_mem _ hmem))

lemma moveRight_score_ne (G : Grid) (row : List Nat) (hmem : row ∈ G)
    (h : (slideAndMergeRow (reverseArray row)).2 ≠ 0) :
    (moveRight G).scoreGained ≠ 0 := by
  simp only [moveRight]
  intro hsum
  rw [List.sum_eq_zero_iff] at hsum
  exact h (hsum _ (List.mem_map_of_mem _ hmem))

lemma moveUp_moved (G : Grid) : (moveUp G).moved = (moveLeft (transposeGrid G)).moved := rfl

lemma moveUp_score (G : Grid) :
    (moveUp G).scoreGained = (moveLeft (transposeGrid G)).scoreGained := rfl

lemma moveDown_moved (G : Grid) :
    (moveDown G).moved = (moveRight (transposeGrid G)).moved := rfl

lemma moveDown_score (G : Grid) :
    (moveDown G).scoreGained = (moveRight (transposeGrid G)).scoreGained := rfl


/-- A zero-free length-4 row with pairwise-distinct neighbors is fixed by
the slide with zero score. -/
lemma slide_fixed_vars (a b c d : Nat) (ha : a ≠ 0) (hb : b ≠ 0) (hc : c ≠ 0) (hd : d ≠ 0)
    (hab : a ≠ b) (hbc : b ≠ c) (hcd : c ≠ d) :
    slideAndMergeRow [a, b, c, d] = ([a, b, c, d], 0) := by
  refine slide_fixed_of_chain _ rfl ?_ ?_
  · intro x hx
    simp at hx
    rcases hx with rfl | rfl | rfl | rfl <;> assumption
  · simp [List.chain'_cons]
    exact ⟨hab, hbc, hcd⟩

lemma slide_fixed_vars_rev (a b c d : Nat) (ha : a ≠ 0) (hb : b ≠ 0) (hc : c ≠ 0)
    (hd : d ≠ 0) (hab : a ≠ b) (hbc : b ≠ c) (hcd : c ≠ d) :
    slideAndMergeRow (reverseArray [a, b, c, d]) = (reverseArray [a, b, c, d], 0) := by
  show slideAndMergeRow [d, c, b, a] = ([d, c, b, a], 0)
  exact slide_fixed_vars d c b a hd hc hb ha (Ne.symm hcd) (Ne.symm hbc) (Ne.symm hab)

set_option maxHeartbeats 1000000 in
/-- The adjacency scan on an explicit 4x4 grid: game over iff every cell
is nonzero and no two horizontally or vertically adjacent cells are
equal. -/
lemma isGameOver_explicit (a b c d e f g h i j k l m n o p : Nat) :
    isGameOver [[a, b, c, d], [e, f, g, h], [i, j, k, l], [m, n, o, p]] = true ↔
      ((a ≠ 0 ∧ b ≠ 0 ∧ c ≠ 0 ∧ d ≠ 0 ∧ e ≠ 0 ∧ f ≠ 0 ∧ g ≠ 0 ∧ h ≠ 0 ∧
        i ≠ 0 ∧ j ≠ 0 ∧ k ≠ 0 ∧ l ≠ 0 ∧ m ≠ 0 ∧ n ≠ 0 ∧ o ≠ 0 ∧ p ≠ 0) ∧
       (a ≠ b ∧ b ≠ c ∧ c ≠ d ∧ e ≠ f ∧ f ≠ g ∧ g ≠ h ∧
        i ≠ j ∧ j ≠ k ∧ k ≠ l ∧ m ≠ n ∧ n ≠ o ∧ o ≠ p) ∧
       (a ≠ e ∧ e ≠ i ∧ i ≠ m ∧ b ≠ f ∧ f ≠ j ∧ j ≠ n ∧
        c ≠ g ∧ g ≠ k ∧ k ≠ o ∧ d ≠ h ∧ h ≠ l ∧ l ≠ p)) := by
  simp [isGameOver, range_four, getCell]
  tauto

/-- C2 (amended): for every valid 4x4 grid other than the all-zero grid,
`isGameOver` returns true if and only if each of the four directions
yields `moved = false` and `scoreGained = 0`; the all-zero grid is the
single exception forced by the counterexample (no move changes it, yet
`isGameOver` reports false because empty cells exist). -/
theorem game_over_iff_no_move_amended (G : Grid) (hG : validGrid G)
    (hne : G ≠ createEmptyGrid) :
    isGameOver G = true ↔
      ∀ dir ∈ allDirections, (move G dir).moved = false ∧ (move G dir).scoreGained = 0 := by
  obtain ⟨a, b, c, d, e, f, g, h, i, j, k, l, m, n, o, p, rfl⟩ := grid_shape G hG
  constructor
  · intro hgo
    rw [isGameOver_explicit] at hgo
    obtain ⟨⟨z1, z2, z3, z4, z5, z6, z7, z8, z9, z10, z11, z12, z13, z14, z15, z16⟩,
      ⟨w1, w2, w3, w4, w5, w6, w7, w8, w9, w10, w11, w12⟩,
      ⟨v1, v2, v3, v4, v5, v6, v7, v8, v9, v10, v11, v12⟩⟩ := hgo
    have hL : moveLeft [[a, b, c, d], [e, f, g, h], [i, j, k, l], [m, n, o, p]] =
        ⟨[[a, b, c, d], [e, f, g, h], [i, j, k, l], [m, n, o, p]], 0, false⟩ := by
      apply moveLeft_noop
      intro row hrow
      simp only [List.mem_cons, List.not_mem_nil, or_false] at hrow
      rcases hrow with rfl | rfl | rfl | rfl
      · exact slide_fixed_vars a b c d z1 z2 z3 z4 w1 w2 w3
      · exact slide_fixed_vars e f g h z5 z6 z7 z8 w4 w5 w6
      · exact slide_fixed_vars i j k l z9 z10 z11 z12 w7 w8 w9
      · exact slide_fixed_vars m n o p z13 z14 z15 z16 w10 w11 w12
    have hR : moveRight [[a, b, c, d], [e, f, g, h], [i, j, k, l], [m, n, o, p]] =
        ⟨[[a, b, c, d], [e, f, g, h], [i, j, k, l], [m, n, o, p]], 0, false⟩ := by
      apply moveRight_noop
      intro row hrow
      simp only [List.mem_cons, List.not_mem_nil, or_false] at hrow
      rcases hrow with rfl | rfl | rfl | rfl
      · exact slide_fixed_vars_rev a b c d z1 z2 z3 z4 w1 w2 w3
      · exact slide_fixed_vars_rev e f g h z5 z6 z7 z8 w4 w5 w6
      · exact slide_fixed_vars_rev i j k l z9 z10 z11 z12 w7 w8 w9
      · exact slide_fixed_vars_rev m n o p z13 z14 z15 z16 w10 w11 w12
    have hLT : moveLeft [[a, e, i, m], [b, f, j, n], [c, g, k, o], [d, h, l, p]] =
        ⟨[[a, e, i, m], [b, f, j, n], [c, g, k, o], [d, h, l, p]], 0, false⟩ := by
      apply moveLeft_noop
      intro row hrow
      simp only [List.mem_cons, List.not_mem_nil, or_false] at hrow
      rcases hrow with rfl | rfl | rfl | rfl
      · exact slide_fixed_vars a e i m z1 z5 z9 z13 v1 v2 v3
      · exact slide_fixed_vars b f j n z2 z6 z10 z14 v4 v5 v6
      · exact slide_fixed_vars c g k o z3 z7 z11 z15 v7 v8 v9
      · exact slide_fixed_vars d h l p z4 z8 z12 z16 v10 v11 v12
    have hRT : moveRight [[a, e, i, m], [b, f, j, n], [c, g, k, o], [d, h, l, p]] =
        ⟨[[a, e, i, m], [b, f, j, n], [c, g, k, o], [d, h, l, p]], 0, false⟩ := by
      apply moveRight_noop
      intro row hrow
      simp only [List.mem_cons, List.not_mem_nil, or_false] at hrow
      rcases hrow with rfl | rfl | rfl | rfl
      · exact slide_fixed_vars_rev a e i m z1 z5 z9 z13 v1 v2 v3
      · exact slide_fixed_vars_rev b f j n z2 z6 z10 z14 v4 v5 v6
      · exact slide_fixed_vars_rev c g k o z3 z7 z11 z15 v7 v8 v9
      · exact slide_fixed_vars_rev d h l p z4 z8 z12 z16 v10 v11 v12
    have hU : moveUp [[a, b, c, d], [e, f, g, h], [i, j, k, l], [m, n, o, p]] =
        ⟨[[a, b, c, d], [e, f, g, h], [i, j, k, l], [m, n, o, p]], 0, false⟩ := by
      rw [moveUp_eq, transpose_explicit, hLT]
      rw [transpose_explicit]
    have hD : moveDown [[a, b, c, d], [e, f, g, h], [i, j, k, l], [m, n, o, p]] =
        ⟨[[a, b, c, d], [e, f, g, h], [i, j, k, l], [m, n, o, p]], 0, false⟩ := by
      rw [moveDown_eq, transpose_explicit, hRT]
      rw [transpose_explicit]
    intro dir hdir
    simp only [allDirections, List.mem_cons, List.not_mem_nil, or_false] at hdir
    rcases hdir with rfl | rfl | rfl | rfl
    · rw [move_UP, hU]; exact ⟨rfl, rfl⟩
    · rw [move_DOWN, hD]; exact ⟨rfl, rfl⟩
    · rw [move_LEFT, hL]; exact ⟨rfl, rfl⟩
    · rw [move_RIGHT, hR]; exact ⟨rfl, rfl⟩
  · intro hmv
    by_contra hb
    rw [isGameOver_explicit] at hb
    have hLf := (hmv Direction.LEFT (by simp [allDirections])).1
    have hRf := (hmv Direction.RIGHT (by simp [allDirections])).1
    have hUf := (hmv Direction.UP (by simp [allDirections])).1
    have hDf := (hmv Direction.DOWN (by simp [allDirections])).1
    rw [move_LEFT] at hLf
    rw [move_RIGHT] at hRf
    rw [move_UP, moveUp_moved, transpose_explicit] at hUf
    rw [move_DOWN, moveDown_moved, transpose_explicit] at hDf
    by_cases hM : ((a = 0 ∨ b = 0 ∨ c = 0 ∨ d = 0) ∧ ¬(a = 0 ∧ b = 0 ∧ c = 0 ∧ d = 0)) ∨
        ((e = 0 ∨ f = 0 ∨ g = 0 ∨ h = 0) ∧ ¬(e = 0 ∧ f = 0 ∧ g = 0 ∧ h = 0)) ∨
        ((i = 0 ∨ j = 0 ∨ k = 0 ∨ l = 0) ∧ ¬(i = 0 ∧ j = 0 ∧ k = 0 ∧ l = 0)) ∨
        ((m = 0 ∨ n = 0 ∨ o = 0 ∨ p = 0) ∧ ¬(m = 0 ∧ n = 0 ∧ o = 0 ∧ p = 0))
    · rcases hM with ⟨h1, h2⟩ | ⟨h1, h2⟩ | ⟨h1, h2⟩ | ⟨h1, h2⟩ <;>
        (rcases row_moves_lr _ _ _ _ h1 h2 with hx | hx
         · have hmvd := moveLeft_moved_of_mem
             [[a, b, c, d], [e, f, g, h], [i, j, k, l], [m, n, o, p]] _ (by simp) hx
           rw [hLf] at hmvd
           exact Bool.false_ne_true hmvd
         · have hmvd := moveRight_moved_of_mem
             [[a, b, c, d], [e, f, g, h], [i, j, k, l], [m, n, o, p]] _ (by simp) hx
           rw [hRf] at hmvd
           exact Bool.false_ne_true hmvd)
    · by_cases hMT :
          ((a = 0 ∨ e = 0 ∨ i = 0 ∨ m = 0) ∧ ¬(a = 0 ∧ e = 0 ∧ i = 0 ∧ m = 0)) ∨
          ((b = 0 ∨ f = 0 ∨ j = 0 ∨ n = 0) ∧ ¬(b = 0 ∧ f = 0 ∧ j = 0 ∧ n = 0)) ∨
          ((c = 0 ∨ g = 0 ∨ k = 0 ∨ o = 0) ∧ ¬(c = 0 ∧ g = 0 ∧ k = 0 ∧ o = 0)) ∨
          ((d = 0 ∨ h = 0 ∨ l = 0 ∨ p = 0) ∧ ¬(d = 0 ∧ h = 0 ∧ l = 0 ∧ p = 0))
      · rcases hMT with ⟨h1, h2⟩ | ⟨h1, h2⟩ | ⟨h1, h2⟩ | ⟨h1, h2⟩ <;>
          (rcases row_moves_lr _ _ _ _ h1 h2 with hx | hx
           · have hmvd := moveLeft_moved_of_mem
               [[a, e, i, m], [b, f, j, n], [c, g, k, o], [d, h, l, p]] _ (by simp) hx
             rw [hUf] at hmvd
             exact Bool.false_ne_true hmvd
           · have hmvd := moveRight_moved_of_mem
               [[a, e, i, m], [b, f, j, n], [c, g, k, o], [d, h, l, p]] _ (by simp) hx
             rw [hDf] at hmvd
             exact Bool.false_ne_true hmvd)
      · by_cases hz : a = 0 ∨ b = 0 ∨ c = 0 ∨ d = 0 ∨ e = 0 ∨ f = 0 ∨ g = 0 ∨ h = 0 ∨
            i = 0 ∨ j = 0 ∨ k = 0 ∨ l = 0 ∨ m = 0 ∨ n = 0 ∨ o = 0 ∨ p = 0
        · apply hne
          push_neg at hM hMT
          have h16 : a = 0 ∧ b = 0 ∧ c = 0 ∧ d = 0 ∧ e = 0 ∧ f = 0 ∧ g = 0 ∧ h = 0 ∧
              i = 0 ∧ j = 0 ∧ k = 0 ∧ l = 0 ∧ m = 0 ∧ n = 0 ∧ o = 0 ∧ p = 0 := by
            omega
          obtain ⟨q1, q2, q3, q4, q5, q6, q7, q8, q9, q10, q11, q12, q13, q14, q15, q16⟩ :=
            h16
          subst q1 q2 q3 q4 q5 q6 q7 q8 q9 q10 q11 q12 q13 q14 q15 q16
          rfl
        · push_neg at hz
          obtain ⟨z1, z2, z3, z4, z5, z6, z7, z8, z9, z10, z11, z12, z13, z14, z15, z16⟩ :=
            hz
          have hLs := (hmv Direction.LEFT (by simp [allDirections])).2
          have hUs := (hmv Direction.UP (by simp [allDirections])).2
          rw [move_LEFT] at hLs
          rw [move_UP, moveUp_score, transpose_explicit] at hUs
          by_cases hH : ((a = b ∨ b = c ∨ c = d) ∨ (e = f ∨ f = g ∨ g = h) ∨
              (i = j ∨ j = k ∨ k = l) ∨ (m = n ∨ n = o ∨ o = p))
          · rcases hH with hr | hr | hr | hr
            · exact moveLeft_score_ne _ _ (by simp)
                (row_score_ne _ _ _ _ ⟨z1, z2, z3, z4⟩ hr) hLs
            · exact moveLeft_score_ne _ _ (by simp)
                (row_score_ne _ _ _ _ ⟨z5, z6, z7, z8⟩ hr) hLs
            · exact moveLeft_score_ne _ _ (by simp)
                (row_score_ne _ _ _ _ ⟨z9, z10, z11, z12⟩ hr) hLs
            · exact moveLeft_score_ne _ _ (by simp)
                (row_score_ne _ _ _ _ ⟨z13, z14, z15, z16⟩ hr) hLs
          · by_cases hV : ((a = e ∨ e = i ∨ i = m) ∨ (b = f ∨ f = j ∨ j = n) ∨
                (c = g ∨ g = k ∨ k = o) ∨ (d = h ∨ h = l ∨ l = p))
            · rcases hV with hr | hr | hr | hr
              · exact moveLeft_score_ne
                  [[a, e, i, m], [b, f, j, n], [c, g, k, o], [d, h, l, p]] _ (by simp)
                  (row_score_ne _ _ _ _ ⟨z1, z5, z9, z13⟩ hr) hUs
              · exact moveLeft_score_ne
                  [[a, e, i, m], [b, f, j, n], [c, g, k, o], [d, h, l, p]] _ (by simp)
                  (row_score_ne _ _ _ _ ⟨z2, z6, z10, z14⟩ hr) hUs
              · exact moveLeft_score_ne
                  [[a, e, i, m], [b, f, j, n], [c, g, k, o], [d, h, l, p]] _ (by simp)
                  (row_score_ne _ _ _ _ ⟨z3, z7, z11, z15⟩ hr) hUs
              · exact moveLeft_score_ne
                  [[a, e, i, m], [b, f, j, n], [c, g, k, o], [d, h, l, p]] _ (by simp)
                  (row_score_ne _ _ _ _ ⟨z4, z8, z12, z16⟩ hr) hUs
            · push_neg at hH hV
              obtain ⟨⟨w1, w2, w3⟩, ⟨w4, w5, w6⟩, ⟨w7, w8, w9⟩, ⟨w10, w11, w12⟩⟩ := hH
              obtain ⟨⟨v1, v2, v3⟩, ⟨v4, v5, v6⟩, ⟨v7, v8, v9⟩, ⟨v10, v11, v12⟩⟩ := hV
              exact hb ⟨⟨z1, z2, z3, z4, z5, z6, z7, z8, z9, z10, z11, z12, z13, z14,
                z15, z16⟩,
                ⟨w1, w2, w3, w4, w5, w6, w7, w8, w9, w10, w11, w12⟩,
                ⟨v1, v2, v3, v4, v5, v6, v7, v8, v9, v10, v11, v12⟩⟩

end Game2048

namespace Game2048

/-! ## Sum conservation and moved-iff-changed helpers -/

lemma moveUp_newGrid (G : Grid) :
    (moveUp G).newGrid = transposeGrid (moveLeft (transposeGrid G)).newGrid := rfl

lemma moveDown_newGrid (G : Grid) :
    (moveDown G).newGrid = transposeGrid (moveRight (transposeGrid G)).newGrid := rfl

lemma gridSum_moveLeft (G : Grid) : gridSum (moveLeft G).newGrid = gridSum G := by
  simp only [gridSum, moveLeft, List.map_map]
  congr 1
  apply List.map_congr_left
  intro r hr
  simp [slide_sum]

lemma gridSum_moveRight (G : Grid) : gridSum (moveRight G).newGrid = gridSum G := by
  simp only [gridSum, moveRight, List.map_map]
  congr 1
  apply List.map_congr_left
  intro r hr
  simp only [Function.comp, reverseArray]
  rw [List.sum_reverse, slide_sum, List.sum_reverse]

lemma gridSum_transpose (G : Grid) (hG : validGrid G) :
    gridSum (transposeGrid G) = gridSum G := by
  obtain ⟨a, b, c, d, e, f, g, h, i, j, k, l, m, n, o, p, rfl⟩ := grid_shape G hG
  rw [transpose_explicit]
  simp [gridSum]
  ring

lemma cloneGrid_eq (G : Grid) : cloneGrid G = G := by
  simp [cloneGrid]

end Game2048

namespace Game2048

/-- C3: a move never changes the total of the cell values: `move` itself
performs no spawn, so for each of the four directions the cell sum of
`newGrid` equals the cell sum of the input grid. -/
theorem move_sum_conserved (G : Grid) (hG : validGrid G) :
    ∀ dir ∈ allDirections, gridSum (move G dir).newGrid = gridSum G := by
  intro dir hdir
  simp only [allDirections, List.mem_cons, List.not_mem_nil, or_false] at hdir
  rcases hdir with rfl | rfl | rfl | rfl
  · rw [move_UP, moveUp_newGrid,
      gridSum_transpose _ (moveLeft_valid _ (transpose_valid G)), gridSum_moveLeft,
      gridSum_transpose G hG]
  · rw [move_DOWN, moveDown_newGrid,
      gridSum_transpose _ (moveRight_valid _ (transpose_valid G)), gridSum_moveRight,
      gridSum_transpose G hG]
  · rw [move_LEFT, gridSum_moveLeft]
  · rw [move_RIGHT, gridSum_moveRight]

/-- C3 witness: the conservation theorem applied to a concrete grid. -/
theorem move_sum_conserved_witness :
    validGrid [[2, 2, 0, 0], [0, 4, 4, 0], [2, 0, 0, 2], [0, 0, 0, 0]] ∧
    ∀ dir ∈ allDirections,
      gridSum (move [[2, 2, 0, 0], [0, 4, 4, 0], [2, 0, 0, 2], [0, 0, 0, 0]] dir).newGrid =
        gridSum [[2, 2, 0, 0], [0, 4, 4, 0], [2, 0, 0, 2], [0, 0, 0, 0]] :=
  ⟨by decide, move_sum_conserved _ (by decide)⟩

/-- C4: for each of the four directions, the `moved` flag is set exactly
when the resulting grid differs element-wise from the input grid. -/
theorem move_moved_iff_changed (G : Grid) (hG : validGrid G) :
    ∀ dir ∈ allDirections, ((move G dir).moved = true ↔ (move G dir).newGrid ≠ G) := by
  intro dir hdir
  simp only [allDirections, List.mem_cons, List.not_mem_nil, or_false] at hdir
  rcases hdir with rfl | rfl | rfl | rfl
  · rw [move_UP]
    constructor
    · intro hmv heq
      rw [moveUp_moved] at hmv
      have h1 := (moveLeft_moved_iff (transposeGrid G)).mp hmv
      apply h1
      have h2 : (moveUp G).newGrid = G := heq
      rw [moveUp_newGrid] at h2
      have h3 := congrArg transposeGrid h2
      rwa [transpose_transpose _ (moveLeft_valid _ (transpose_valid G))] at h3
    · intro hne
      by_contra hmv
      rw [Bool.not_eq_true, moveUp_moved] at hmv
      have h1 : (moveLeft (transposeGrid G)).newGrid = transposeGrid G := by
        by_contra hgg
        have hx := (moveLeft_moved_iff (transposeGrid G)).mpr hgg
        rw [hmv] at hx
        exact Bool.false_ne_true hx
      apply hne
      rw [moveUp_newGrid, h1, transpose_transpose G hG]
  · rw [move_DOWN]
    constructor
    · intro hmv heq
      rw [moveDown_moved] at hmv
      have h1 := (moveRight_moved_iff (transposeGrid G)).mp hmv
      apply h1
      have h2 : (moveDown G).newGrid = G := heq
      rw [moveDown_newGrid] at h2
      have h3 := congrArg transposeGrid h2
      rwa [transpose_transpose _ (moveRight_valid _ (transpose_valid G))] at h3
    · intro hne
      by_contra hmv
      rw [Bool.not_eq_true, moveDown_moved] at hmv
      have h1 : (moveRight (transposeGrid G)).newGrid = transposeGrid G := by
        by_contra hgg
        have hx := (moveRight_moved_iff (transposeGrid G)).mpr hgg
        rw [hmv] at hx
        exact Bool.false_ne_true hx
      apply hne
      rw [moveDown_newGrid, h1, transpose_transpose G hG]
  · rw [move_LEFT]
    exact moveLeft_moved_iff G
  · rw [move_RIGHT]
    exact moveRight_moved_iff G

/-- C4 witness: the moved-iff-changed theorem applied to a concrete
grid. -/
theorem move_moved_iff_changed_witness :
    validGrid [[2, 0, 0, 0], [0, 0, 0, 0], [0, 0, 0, 0], [0, 0, 0, 2]] ∧
    ∀ dir ∈ allDirections,
      ((move [[2, 0, 0, 0], [0, 0, 0, 0], [0, 0, 0, 0], [0, 0, 0, 2]] dir).moved = true ↔
        (move [[2, 0, 0, 0], [0, 0, 0, 0], [0, 0, 0, 0], [0, 0, 0, 2]] dir).newGrid ≠
          [[2, 0, 0, 0], [0, 0, 0, 0], [0, 0, 0, 0], [0, 0, 0, 2]]) :=
  ⟨by decide, move_moved_iff_changed _ (by decide)⟩

/-- C1: `slideAndMergeRow [2,2,2,2]` returns `([4,4,0,0], 8)`, and in
general a row of four equal nonzero tiles merges into exactly two doubled
tiles (each adjacent pair merges once), while a freshly merged tile never
merges again with an equal neighbor within the same sweep
(`[a,a,2a,0]` yields `[2a,2a,0,0]`, not `[4a,0,0,0]`). -/
theorem slideAndMergeRow_merge_once :
    slideAndMergeRow [2, 2, 2, 2] = ([4, 4, 0, 0], 8) ∧
    ∀ a : Nat, a ≠ 0 →
      slideAndMergeRow [a, a, a, a] = ([2 * a, 2 * a, 0, 0], 4 * a) ∧
      slideAndMergeRow [a, a, 2 * a, 0] = ([2 * a, 2 * a, 0, 0], 2 * a) := by
  refine ⟨by decide, fun a ha => ⟨?_, ?_⟩⟩
  · have h2a : 2 * a ≠ 0 := by omega
    simp [slideAndMergeRow, mergeList, padTo4, ha, h2a]
    omega
  · have h2a : 2 * a ≠ 0 := by omega
    simp [slideAndMergeRow, mergeList, padTo4, ha, h2a]

/-- C1 witness: the general no-double-merge statement applied at `a = 2`. -/
theorem slideAndMergeRow_merge_once_witness :
    (2 : Nat) ≠ 0 ∧
    slideAndMergeRow [2, 2, 2, 2] = ([2 * 2, 2 * 2, 0, 0], 4 * 2) ∧
    slideAndMergeRow [2, 2, 2 * 2, 0] = ([2 * 2, 2 * 2, 0, 0], 2 * 2) :=
  ⟨by decide, slideAndMergeRow_merge_once.2 2 (by decide)⟩

/-- C2 counterexample: on the all-zero grid, every direction returns
`moved = false` and `scoreGained = 0`, yet `isGameOver` is false — so the
claimed equivalence fails as stated. -/
theorem game_over_iff_no_move_cex :
    isGameOver createEmptyGrid = false ∧
    ∀ dir ∈ allDirections,
      (move createEmptyGrid dir).moved = false ∧
        (move createEmptyGrid dir).scoreGained = 0 := by decide

/-- C2 witness: the amended equivalence applied to a concrete saturated
grid. -/
theorem game_over_iff_no_move_amended_witness :
    validGrid [[2, 4, 2, 4], [4, 2, 4, 2], [2, 4, 2, 4], [4, 2, 4, 2]] ∧
    [[2, 4, 2, 4], [4, 2, 4, 2], [2, 4, 2, 4], [4, 2, 4, 2]] ≠ createEmptyGrid ∧
    (isGameOver [[2, 4, 2, 4], [4, 2, 4, 2], [2, 4, 2, 4], [4, 2, 4, 2]] = true ↔
      ∀ dir ∈ allDirections,
        (move [[2, 4, 2, 4], [4, 2, 4, 2], [2, 4, 2, 4], [4, 2, 4, 2]] dir).moved = false ∧
        (move [[2, 4, 2, 4], [4, 2, 4, 2], [2, 4, 2, 4], [4, 2, 4, 2]] dir).scoreGained = 0) :=
  ⟨by decide, by decide, game_over_iff_no_move_amended _ (by decide) (by decide)⟩

/-! ## C6: re-applying a left move -/

lemma moveLeft_second (G : Grid)
    (hs : (moveLeft (moveLeft G).newGrid).scoreGained = 0) :
    (moveLeft (moveLeft G).newGrid).moved = false := by
  have hrows : ∀ row ∈ (moveLeft G).newGrid, (slideAndMergeRow row).2 = 0 := by
    intro row hrow
    simp only [moveLeft] at hs
    rw [List.sum_eq_zero_iff] at hs
    exact hs _ (List.mem_map_of_mem _ hrow)
  simp only [moveLeft, List.any_eq_false]
  intro row hrow
  simp only [moveLeft, List.mem_map] at hrow
  obtain ⟨orig, horig, rfl⟩ := hrow
  have h2 := slide_second_fixed orig (hrows _ (List.mem_map_of_mem _ horig))
  simp [h2]

/-- C6 counterexample: a second LEFT move right after a first one can
still report `moved = true` — the first move's merge results `[4, 4]` sit
adjacent and merge again on the second call. -/
theorem moveLeft_twice_cex :
    (move (move [[2, 2, 4, 0], [0, 0, 0, 0], [0, 0, 0, 0], [0, 0, 0, 0]]
        Direction.LEFT).newGrid Direction.LEFT).moved = true := by decide

/-- C6 (amended): a second LEFT move right after a first one (no spawn in
between) reports `moved = false` whenever it gains no score, i.e. the
only way the grid can change again is via a fresh merge. -/
theorem moveLeft_twice_amended (G : Grid) (hG : validGrid G)
    (hs : (move (move G Direction.LEFT).newGrid Direction.LEFT).scoreGained = 0) :
    (move (move G Direction.LEFT).newGrid Direction.LEFT).moved = false := by
  rw [move_LEFT, move_LEFT] at hs ⊢
  exact moveLeft_second G hs

/-- C6 witness: the amended statement applied to a fully compacted
merge-free row. -/
theorem moveLeft_twice_amended_witness :
    validGrid [[2, 4, 8, 16], [0, 0, 0, 0], [0, 0, 0, 0], [0, 0, 0, 0]] ∧
    (move (move [[2, 4, 8, 16], [0, 0, 0, 0], [0, 0, 0, 0], [0, 0, 0, 0]]
        Direction.LEFT).newGrid Direction.LEFT).scoreGained = 0 ∧
    (move (move [[2, 4, 8, 16], [0, 0, 0, 0], [0, 0, 0, 0], [0, 0, 0, 0]]
        Direction.LEFT).newGrid Direction.LEFT).moved = false :=
  ⟨by decide, by decide, moveLeft_twice_amended _ (by decide) (by decide)⟩

/-- C7: any direction value other than the four enum constants is a
defined no-op: the dispatcher's default branch returns the input grid,
zero score and `moved = false` (total, no exception). -/
theorem move_unknown_direction_noop (G : Grid) (dir : String)
    (hdir : dir ∉ allDirections) :
    (move G dir).newGrid = G ∧ (move G dir).scoreGained = 0 ∧
      (move G dir).moved = false := by
  simp only [allDirections, List.mem_cons, List.not_mem_nil, or_false] at hdir
  push_neg at hdir
  obtain ⟨h1, h2, h3, h4⟩ := hdir
  simp only [move, if_neg h1, if_neg h2, if_neg h3, if_neg h4]
  simp

/-- C7 witness: the no-op contract applied to the direction `"TILT"`. -/
theorem move_unknown_direction_noop_witness :
    "TILT" ∉ allDirections ∧
    ((move [[2, 4, 0, 0], [0, 0, 0, 0], [0, 0, 0, 0], [0, 0, 0, 0]] "TILT").newGrid =
        [[2, 4, 0, 0], [0, 0, 0, 0], [0, 0, 0, 0], [0, 0, 0, 0]] ∧
      (move [[2, 4, 0, 0], [0, 0, 0, 0], [0, 0, 0, 0], [0, 0, 0, 0]] "TILT").scoreGained = 0 ∧
      (move [[2, 4, 0, 0], [0, 0, 0, 0], [0, 0, 0, 0], [0, 0, 0, 0]] "TILT").moved = false) :=
  ⟨by decide, move_unknown_direction_noop _ "TILT" (by decide)⟩

/-! ## C5: shape and power-of-two invariants -/

lemma slide_pow2 (row : List Nat) (h : ∀ x ∈ row, x = 0 ∨ ∃ k, x = 2 ^ k) :
    ∀ x ∈ (slideAndMergeRow row).1, x = 0 ∨ ∃ k, x = 2 ^ k := by
  intro x hx
  rw [slide_fst, padTo4_def] at hx
  rcases List.mem_append.mp hx with hx | hx
  · have hx1 := (List.mem_filter.mp hx).1
    rcases mergeList_mem _ x hx1 with rfl | hmem | ⟨y, hy, rfl⟩
    · exact Or.inl rfl
    · exact h x (List.mem_filter.mp hmem).1
    · rcases h y (List.mem_filter.mp hy).1 with rfl | ⟨k, rfl⟩
      · exact Or.inl (by simp)
      · exact Or.inr ⟨k + 1, by ring⟩
  · exact Or.inl (List.eq_of_mem_replicate hx)

lemma moveLeft_cellsOK (G : Grid) (hc : cellsOK G) : cellsOK (moveLeft G).newGrid := by
  intro row hrow
  simp only [moveLeft, List.mem_map] at hrow
  obtain ⟨r, hr, rfl⟩ := hrow
  exact slide_pow2 r (hc r hr)

lemma moveRight_cellsOK (G : Grid) (hc : cellsOK G) : cellsOK (moveRight G).newGrid := by
  intro row hrow
  simp only [moveRight, List.mem_map] at hrow
  obtain ⟨r, hr, rfl⟩ := hrow
  intro x hx
  simp only [reverseArray, List.mem_reverse] at hx
  refine slide_pow2 _ ?_ x hx
  intro y hy
  simp only [reverseArray, List.mem_reverse] at hy
  exact hc r hr y hy

lemma transpose_cellsOK (G : Grid) (hG : validGrid G) (hc : cellsOK G) :
    cellsOK (transposeGrid G) := by
  obtain ⟨a, b, c, d, e, f, g, h, i, j, k, l, m, n, o, p, rfl⟩ := grid_shape G hG
  rw [transpose_explicit]
  intro row hrow x hx
  simp only [List.mem_cons, List.not_mem_nil, or_false] at hrow
  rcases hrow with rfl | rfl | rfl | rfl
  · simp only [List.mem_cons, List.not_mem_nil, or_false] at hx
    rcases hx with h1 | h1 | h1 | h1 <;> rw [h1]
    · exact hc [a, b, c, d] (by simp) a (by simp)
    · exact hc [e, f, g, h] (by simp) e (by simp)
    · exact hc [i, j, k, l] (by simp) i (by simp)
    · exact hc [m, n, o, p] (by simp) m (by simp)
  · simp only [List.mem_cons, List.not_mem_nil, or_false] at hx
    rcases hx with h1 | h1 | h1 | h1 <;> rw [h1]
    · exact hc [a, b, c, d] (by simp) b (by simp)
    · exact hc [e, f, g, h] (by simp) f (by simp)
    · exact hc [i, j, k, l] (by simp) j (by simp)
    · exact hc [m, n, o, p] (by simp) n (by simp)
  · simp only [List.mem_cons, List.not_mem_nil, or_false] at hx
    rcases hx with h1 | h1 | h1 | h1 <;> rw [h1]
    · exact hc [a, b, c, d] (by simp) c (by simp)
    · exact hc [e, f, g, h] (by simp) g (by simp)
    · exact hc [i, j, k, l] (by simp) k (by simp)
    · exact hc [m, n, o, p] (by simp) o (by simp)
  · simp only [List.mem_cons, List.not_mem_nil, or_false] at hx
    rcases hx with h1 | h1 | h1 | h1 <;> rw [h1]
    · exact hc [a, b, c, d] (by simp) d (by simp)
    · exact hc [e, f, g, h] (by simp) h (by simp)
    · exact hc [i, j, k, l] (by simp) l (by simp)
    · exact hc [m, n, o, p] (by simp) p (by simp)

lemma getD_row_cellsOK (G : Grid) (hc : cellsOK G) (r : Nat) :
    ∀ x ∈ G.getD r [], x = 0 ∨ ∃ k, x = 2 ^ k := by
  intro x hx
  rcases Nat.lt_or_ge r G.length with hlt | hge
  · rw [List.getD_eq_getElem _ _ hlt] at hx
    exact hc _ (List.getElem_mem hlt) x hx
  · rw [List.getD_eq_default _ _ hge] at hx
    simp at hx

lemma setCell_cellsOK (G : Grid) (hc : cellsOK G) (r c v : Nat)
    (hv : v = 0 ∨ ∃ k, v = 2 ^ k) : cellsOK (setCell G r c v) := by
  intro row hrow
  rcases List.mem_or_eq_of_mem_set hrow with hmem | rfl
  · exact hc row hmem
  · intro x hx
    rcases List.mem_or_eq_of_mem_set hx with hmem | rfl
    · exact getD_row_cellsOK G hc r x hmem
    · exact hv

lemma setCell_valid (G : Grid) (hG : validGrid G) (r c v : Nat) (hr : r < 4) :
    validGrid (setCell G r c v) := by
  obtain ⟨hlen, hrows⟩ := hG
  constructor
  · simp [setCell, hlen]
  · intro row hrow
    rcases List.mem_or_eq_of_mem_set hrow with hmem | rfl
    · exact hrows row hmem
    · rw [List.length_set]
      apply hrows
      rw [List.getD_eq_getElem _ _ (by omega : r < G.length)]
      exact List.getElem_mem _

lemma emptyCells_mem_lt (G : Grid) (q : Nat × Nat) (hq : q ∈ emptyCells G) :
    q.1 < 4 ∧ q.2 < 4 := by
  simp only [emptyCells, List.mem_flatMap, List.mem_filterMap, List.mem_range] at hq
  obtain ⟨r, hr, c, hc, hqe⟩ := hq
  by_cases hz : getCell G r c = 0
  · rw [if_pos hz] at hqe
    obtain rfl := Option.some.inj hqe
    exact ⟨hr, hc⟩
  · rw [if_neg hz] at hqe
    cases hqe

lemma addRandomTile_valid (G : Grid) (hG : validGrid G) (pick : Nat) (coin : Bool) :
    validGrid (addRandomTile G pick coin) := by
  simp only [addRandomTile, cloneGrid_eq]
  split
  · exact hG
  · rename_i hne
    have hlen : (emptyCells G).length ≠ 0 := hne
    have hidx : pick % (emptyCells G).length < (emptyCells G).length :=
      Nat.mod_lt _ (Nat.pos_of_ne_zero hlen)
    have hmem : (emptyCells G).getD (pick % (emptyCells G).length) (0, 0) ∈ emptyCells G := by
      rw [List.getD_eq_getElem _ _ hidx]
      exact List.getElem_mem _
    exact setCell_valid G hG _ _ _ (emptyCells_mem_lt G _ hmem).1

lemma addRandomTile_cellsOK (G : Grid) (hc : cellsOK G) (pick : Nat) (coin : Bool) :
    cellsOK (addRandomTile G pick coin) := by
  simp only [addRandomTile, cloneGrid_eq]
  split
  · exact hc
  · apply setCell_cellsOK G hc
    cases coin
    · exact Or.inr ⟨2, by simp⟩
    · exact Or.inr ⟨1, by simp⟩

/-- C5: starting from a valid 4x4 grid whose cells are all zero or powers
of two, every direction of `move` and every random outcome of
`addRandomTile` again produce a 4x4 grid of naturals (hence every cell
is ≥ 0) whose nonzero cells are powers of two. -/
theorem engine_preserves_shape_pow2 (G : Grid) (hG : validGrid G) (hc : cellsOK G) :
    (∀ dir ∈ allDirections,
        validGrid (move G dir).newGrid ∧ cellsOK (move G dir).newGrid) ∧
    ∀ pick coin,
      validGrid (addRandomTile G pick coin) ∧ cellsOK (addRandomTile G pick coin) := by
  constructor
  · intro dir hdir
    simp only [allDirections, List.mem_cons, List.not_mem_nil, or_false] at hdir
    rcases hdir with rfl | rfl | rfl | rfl
    · rw [move_UP, moveUp_newGrid]
      exact ⟨transpose_valid _, transpose_cellsOK _ (moveLeft_valid _ (transpose_valid G))
        (moveLeft_cellsOK _ (transpose_cellsOK G hG hc))⟩
    · rw [move_DOWN, moveDown_newGrid]
      exact ⟨transpose_valid _, transpose_cellsOK _ (moveRight_valid _ (transpose_valid G))
        (moveRight_cellsOK _ (transpose_cellsOK G hG hc))⟩
    · rw [move_LEFT]
      exact ⟨moveLeft_valid G hG, moveLeft_cellsOK G hc⟩
    · rw [move_RIGHT]
      exact ⟨moveRight_valid G hG, moveRight_cellsOK G hc⟩
  · intro pick coin
    exact ⟨addRandomTile_valid G hG pick coin, addRandomTile_cellsOK G hc pick coin⟩

/-- C5 witness: the invariants applied to a concrete grid holding a 2 and
a 4. -/
theorem engine_preserves_shape_pow2_witness :
    validGrid [[2, 4, 0, 0], [0, 0, 0, 0], [0, 0, 0, 0], [0, 0, 0, 0]] ∧
    cellsOK [[2, 4, 0, 0], [0, 0, 0, 0], [0, 0, 0, 0], [0, 0, 0, 0]] ∧
    ((∀ dir ∈ allDirections,
        validGrid (move [[2, 4, 0, 0], [0, 0, 0, 0], [0, 0, 0, 0], [0, 0, 0, 0]] dir).newGrid ∧
        cellsOK (move [[2, 4, 0, 0], [0, 0, 0, 0], [0, 0, 0, 0], [0, 0, 0, 0]] dir).newGrid) ∧
      ∀ pick coin,
        validGrid (addRandomTile [[2, 4, 0, 0], [0, 0, 0, 0], [0, 0, 0, 0], [0, 0, 0, 0]]
          pick coin) ∧
        cellsOK (addRandomTile [[2, 4, 0, 0], [0, 0, 0, 0], [0, 0, 0, 0], [0, 0, 0, 0]]
          pick coin)) := by
  have hcW : cellsOK [[2, 4, 0, 0], [0, 0, 0, 0], [0, 0, 0, 0], [0, 0, 0, 0]] := by
    intro row hrow x hx
    simp only [List.mem_cons, List.not_mem_nil, or_false] at hrow
    rcases hrow with rfl | rfl | rfl | rfl <;>
      (simp only [List.mem_cons, List.not_mem_nil, or_false] at hx
       rcases hx with rfl | rfl | rfl | rfl) <;>
      first
        | exact Or.inl rfl
        | exact Or.inr ⟨1, rfl⟩
        | exact Or.inr ⟨2, rfl⟩
  exact ⟨by decide, hcW, engine_preserves_shape_pow2 _ (by decide) hcW⟩

/-! ## C8: adding a tile to a full grid -/

lemma emptyCells_nil (G : Grid) (hG : validGrid G)
    (hnz : ∀ row ∈ G, ∀ x ∈ row, x ≠ 0) : emptyCells G = [] := by
  obtain ⟨a, b, c, d, e, f, g, h, i, j, k, l, m, n, o, p, rfl⟩ := grid_shape G hG
  have z1 : a ≠ 0 := hnz [a, b, c, d] (by simp) a (by simp)
  have z2 : b ≠ 0 := hnz [a, b, c, d] (by simp) b (by simp)
  have z3 : c ≠ 0 := hnz [a, b, c, d] (by simp) c (by simp)
  have z4 : d ≠ 0 := hnz [a, b, c, d] (by simp) d (by simp)
  have z5 : e ≠ 0 := hnz [e, f, g, h] (by simp) e (by simp)
  have z6 : f ≠ 0 := hnz [e, f, g, h] (by simp) f (by simp)
  have z7 : g ≠ 0 := hnz [e, f, g, h] (by simp) g (by simp)
  have z8 : h ≠ 0 := hnz [e, f, g, h] (by simp) h (by simp)
  have z9 : i ≠ 0 := hnz [i, j, k, l] (by simp) i (by simp)
  have z10 : j ≠ 0 := hnz [i, j, k, l] (by simp) j (by simp)
  have z11 : k ≠ 0 := hnz [i, j, k, l] (by simp) k (by simp)
  have z12 : l ≠ 0 := hnz [i, j, k, l] (by simp) l (by simp)
  have z13 : m ≠ 0 := hnz [m, n, o, p] (by simp) m (by simp)
  have z14 : n ≠ 0 := hnz [m, n, o, p] (by simp) n (by simp)
  have z15 : o ≠ 0 := hnz [m, n, o, p] (by simp) o (by simp)
  have z16 : p ≠ 0 := hnz [m, n, o, p] (by simp) p (by simp)
  simp [emptyCells, range_four, getCell, z1, z2, z3, z4, z5, z6, z7, z8, z9, z10,
    z11, z12, z13, z14, z15, z16]

/-- C8: on a valid 4x4 grid with no empty cell, `addRandomTile` is a
no-op clone for every outcome of the random source — it returns a grid
equal to its input. -/
theorem addRandomTile_full_noop (G : Grid) (hG : validGrid G)
    (hnz : ∀ row ∈ G, ∀ x ∈ row, x ≠ 0) :
    ∀ pick coin, addRandomTile G pick coin = G := by
  intro pick coin
  simp [addRandomTile, cloneGrid_eq, emptyCells_nil G hG hnz]

/-- C8 witness: the no-op contract applied to a concrete full grid. -/
theorem addRandomTile_full_noop_witness :
    validGrid [[2, 4, 8, 2], [4, 8, 2, 4], [8, 2, 4, 8], [2, 4, 8, 2]] ∧
    (∀ row ∈ ([[2, 4, 8, 2], [4, 8, 2, 4], [8, 2, 4, 8], [2, 4, 8, 2]] : Grid),
      ∀ x ∈ row, x ≠ 0) ∧
    ∀ pick coin, addRandomTile [[2, 4, 8, 2], [4, 8, 2, 4], [8, 2, 4, 8], [2, 4, 8, 2]]
      pick coin = [[2, 4, 8, 2], [4, 8, 2, 4], [8, 2, 4, 8], [2, 4, 8, 2]] :=
  ⟨by decide, by decide, addRandomTile_full_noop _ (by decide) (by decide)⟩

/-! ## C9: the win predicate -/

lemma hasWon_iff (G : Grid) :
    hasWon G = true ↔ ∃ r, r < 4 ∧ ∃ c, c < 4 ∧ getCell G r c = 2048 := by
  simp [hasWon]

lemma getCell_mem (G : Grid) (hG : validGrid G) (r c : Nat) (hr : r < 4) (hc : c < 4) :
    ∃ row ∈ G, getCell G r c ∈ row := by
  obtain ⟨x0, x1, x2, x3, x4, x5, x6, x7, x8, x9, x10, x11, x12, x13, x14, x15, rfl⟩ :=
    grid_shape G hG
  interval_cases r <;> interval_cases c
  · exact ⟨[x0, x1, x2, x3], by simp, by simp [getCell]⟩
  · exact ⟨[x0, x1, x2, x3], by simp, by simp [getCell]⟩
  · exact ⟨[x0, x1, x2, x3], by simp, by simp [getCell]⟩
  · exact ⟨[x0, x1, x2, x3], by simp, by simp [getCell]⟩
  · exact ⟨[x4, x5, x6, x7], by simp, by simp [getCell]⟩
  · exact ⟨[x4, x5, x6, x7], by simp, by simp [getCell]⟩
  · exact ⟨[x4, x5, x6, x7], by simp, by simp [getCell]⟩
  · exact ⟨[x4, x5, x6, x7], by simp, by simp [getCell]⟩
  · exact ⟨[x8, x9, x10, x11], by simp, by simp [getCell]⟩
  · exact ⟨[x8, x9, x10, x11], by simp, by simp [getCell]⟩
  · exact ⟨[x8, x9, x10, x11], by simp, by simp [getCell]⟩
  · exact ⟨[x8, x9, x10, x11], by simp, by simp [getCell]⟩
  · exact ⟨[x12, x13, x14, x15], by simp, by simp [getCell]⟩
  · exact ⟨[x12, x13, x14, x15], by simp, by simp [getCell]⟩
  · exact ⟨[x12, x13, x14, x15], by simp, by simp [getCell]⟩
  · exact ⟨[x12, x13, x14, x15], by simp, by simp [getCell]⟩

/-- C9 counterexample: a grid whose maximum cell value is 4096 on which
`hasWon` nevertheless returns true, because a different cell holds 2048 —
so "returns false for a grid whose maximum cell value is 4096" fails as a
universal statement. -/
theorem hasWon_max4096_cex :
    (∀ row ∈ ([[2048, 4096, 2, 4], [8, 16, 32, 64], [128, 256, 512, 1024],
        [2, 4, 8, 16]] : Grid), ∀ x ∈ row, x ≤ 4096) ∧
    getCell [[2048, 4096, 2, 4], [8, 16, 32, 64], [128, 256, 512, 1024],
      [2, 4, 8, 16]] 0 1 = 4096 ∧
    hasWon [[2048, 4096, 2, 4], [8, 16, 32, 64], [128, 256, 512, 1024],
      [2, 4, 8, 16]] = true := by decide

/-- C9 (amended): `hasWon` is true exactly when some cell equals 2048; in
particular it is false whenever every cell is at most 1024, and false on
any grid (for example one whose maximum is 4096) in which no cell equals
2048 exactly. -/
theorem hasWon_iff_2048_amended (G : Grid) (hG : validGrid G) :
    (hasWon G = true ↔ ∃ r, r < 4 ∧ ∃ c, c < 4 ∧ getCell G r c = 2048) ∧
    ((∀ row ∈ G, ∀ x ∈ row, x ≤ 1024) → hasWon G = false) ∧
    ((∀ row ∈ G, ∀ x ∈ row, x ≠ 2048) → hasWon G = false) := by
  refine ⟨hasWon_iff G, ?_, ?_⟩
  · intro h1024
    by_contra hbf
    rw [Bool.not_eq_false] at hbf
    obtain ⟨r, hr, c, hc, hcell⟩ := (hasWon_iff G).mp hbf
    obtain ⟨row, hrow, hmem⟩ := getCell_mem G hG r c hr hc
    have hle := h1024 row hrow _ hmem
    omega
  · intro hno
    by_contra hbf
    rw [Bool.not_eq_false] at hbf
    obtain ⟨r, hr, c, hc, hcell⟩ := (hasWon_iff G).mp hbf
    obtain ⟨row, hrow, hmem⟩ := getCell_mem G hG r c hr hc
    exact hno row hrow _ hmem hcell

/-- C9 witness: the amended characterization applied to a grid holding a
2048. -/
theorem hasWon_iff_2048_amended_witness :
    validGrid [[2048, 2, 4, 8], [16, 32, 64, 128], [256, 512, 1024, 2], [4, 8, 16, 32]] ∧
    ((hasWon [[2048, 2, 4, 8], [16, 32, 64, 128], [256, 512, 1024, 2], [4, 8, 16, 32]] =
        true ↔
      ∃ r, r < 4 ∧ ∃ c, c < 4 ∧
        getCell [[2048, 2, 4, 8], [16, 32, 64, 128], [256, 512, 1024, 2], [4, 8, 16, 32]]
          r c = 2048) ∧
    ((∀ row ∈ ([[2048, 2, 4, 8], [16, 32, 64, 128], [256, 512, 1024, 2],
        [4, 8, 16, 32]] : Grid), ∀ x ∈ row, x ≤ 1024) →
      hasWon [[2048, 2, 4, 8], [16, 32, 64, 128], [256, 512, 1024, 2], [4, 8, 16, 32]] =
        false) ∧
    ((∀ row ∈ ([[2048, 2, 4, 8], [16, 32, 64, 128], [256, 512, 1024, 2],
        [4, 8, 16, 32]] : Grid), ∀ x ∈ row, x ≠ 2048) →
      hasWon [[2048, 2, 4, 8], [16, 32, 64, 128], [256, 512, 1024, 2], [4, 8, 16, 32]] =
        false)) :=
  ⟨by decide, hasWon_iff_2048_amended _ (by decide)⟩

/-! ## C10: no movement means no score -/

lemma moveLeft_not_moved_score (G : Grid) (h : (moveLeft G).moved = false) :
    (moveLeft G).scoreGained = 0 := by
  simp only [moveLeft, List.any_eq_false] at h
  simp only [moveLeft]
  apply List.sum_eq_zero
  intro x hx
  simp only [List.mem_map] at hx
  obtain ⟨row, hrow, rfl⟩ := hx
  by_contra hs
  have hne := slide_score_ne_imp_changed row hs
  have heq : (slideAndMergeRow row).1 = row := by simpa using h row hrow
  exact hne heq

lemma moveRight_not_moved_score (G : Grid) (h : (moveRight G).moved = false) :
    (moveRight G).scoreGained = 0 := by
  simp only [moveRight, List.any_eq_false] at h
  simp only [moveRight]
  apply List.sum_eq_zero
  intro x hx
  simp only [List.mem_map] at hx
  obtain ⟨row, hrow, rfl⟩ := hx
  by_contra hs
  have hne := slide_score_ne_imp_changed (reverseArray row) hs
  have heq : reverseArray (slideAndMergeRow (reverseArray row)).1 = row := by
    simpa using h row hrow
  apply hne
  have h2 := congrArg reverseArray heq
  rwa [reverseArray_reverseArray] at h2

/-- C10: for each of the four directions, a move reporting
`moved = false` also reports `scoreGained = 0` — a merge always changes
the row, so an unmoved grid cannot have gained score. -/
theorem move_not_moved_score_zero (G : Grid) (hG : validGrid G) :
    ∀ dir ∈ allDirections,
      (move G dir).moved = false → (move G dir).scoreGained = 0 := by
  intro dir hdir
  simp only [allDirections, List.mem_cons, List.not_mem_nil, or_false] at hdir
  rcases hdir with rfl | rfl | rfl | rfl
  · rw [move_UP, moveUp_moved, moveUp_score]
    exact moveLeft_not_moved_score _
  · rw [move_DOWN, moveDown_moved, moveDown_score]
    exact moveRight_not_moved_score _
  · rw [move_LEFT]
    exact moveLeft_not_moved_score _
  · rw [move_RIGHT]
    exact moveRight_not_moved_score _

/-- C10 witness: the implication applied to a concrete grid. -/
theorem move_not_moved_score_zero_witness :
    validGrid [[2, 4, 8, 16], [4, 2, 4, 2], [2, 4, 2, 4], [4, 2, 4, 2]] ∧
    ∀ dir ∈ allDirections,
      (move [[2, 4, 8, 16], [4, 2, 4, 2], [2, 4, 2, 4], [4, 2, 4, 2]] dir).moved = false →
      (move [[2, 4, 8, 16], [4, 2, 4, 2], [2, 4, 2, 4], [4, 2, 4, 2]] dir).scoreGained = 0 :=
  ⟨by decide, move_not_moved_score_zero _ (by decide)⟩

end Game2048
